import Mathlib

/-!
Shallow embedding of `src/photogallery.js` (class `PhotoGallery`): the
navigation state machine (`goto`, `next`, `prev`), the gesture handlers
(`_touchStart`, `_touchMove`, `_touchEnd`) and the autoplay coordination
(`startAutoplay` with its hover listeners), together with proofs about them.

Pixel coordinates are modelled as integers; the live-drag hint percentage is
a rational, standing in for JS number arithmetic.  DOM construction, CSS and
fullscreen toggling are out of scope; the presentation side effects of a
handler (track transform, transition flag, nav highlight) are returned as
explicit values.
-/

namespace PhotoGallery

/-- Presentation instruction emitted by `goto`: the track transform
percentage (`translateX(percentage%)`), whether the move uses a transition
animation, and which nav thumb, if any, receives the `active` class
(the code guards on `thumbs[index]` existing). -/
structure Instr where
  percentage : Int
  animate : Bool
  highlight : Option Int
  deriving DecidableEq, Repr

/-- Live, non-committing rendering hint emitted by `_touchMove`: the track
translate percentage, applied without transition animation. -/
structure DragHint where
  translatePercent : ℚ
  deriving DecidableEq, Repr

/-- The fields of a `PhotoGallery` instance that the navigation and gesture
engine reads or writes.  `itemsLength` is `this.items.length` (the item list
is built once in `_initStructure` and never mutated afterwards); `loop` is
`config.loop`; the remaining fields are the instance fields of the same
names. -/
structure Gallery where
  itemsLength : Nat
  loop : Bool
  activeIndex : Int
  isDragging : Bool
  startPos : Int
  currentTranslate : Int
  deriving DecidableEq, Repr

/-- Index resolution at the top of `goto` (photogallery.js lines 240-248):
two sequential `if` statements reassigning `index`, under `config.loop`
wrapping one step and otherwise clamping. -/
def resolveIndex (lp : Bool) (len : Nat) (index : Int) : Int :=
  if lp then
    let i1 := if index < 0 then (len : Int) - 1 else index
    if i1 ≥ (len : Int) then 0 else i1
  else
    let i1 := if index < 0 then 0 else index
    if i1 ≥ (len : Int) then (len : Int) - 1 else i1

/-- The `goto(index, animate)` method (photogallery.js lines 239-274):
resolves the index against the mode, stores it in `activeIndex`, moves the
track to `-(activeIndex * 100)` percent (also recorded in
`currentTranslate`), and highlights the nav entry at the applied index when
one exists. -/
def goto (g : Gallery) (index : Int) (animate : Bool) : Gallery × Instr :=
  let i := resolveIndex g.loop g.itemsLength index
  let percentage := -(i * 100)
  ({ g with activeIndex := i, currentTranslate := percentage },
   { percentage := percentage
     animate := animate
     highlight := if 0 ≤ i ∧ i < (g.itemsLength : Int) then some i else none })

/-- The `next()` method (photogallery.js lines 276-278). -/
def next (g : Gallery) : Gallery × Instr :=
  goto g (g.activeIndex + 1) true

/-- The `prev()` method (photogallery.js lines 280-282). -/
def prev (g : Gallery) : Gallery × Instr :=
  goto g (g.activeIndex - 1) true

/-- The `_touchStart` handler (photogallery.js lines 314-318): marks the drag
active and records the start position.  It also sets the track transition to
`none`, a presentation-only effect. -/
def touchStart (g : Gallery) (pos : Int) : Gallery :=
  { g with isDragging := true, startPos := pos }

/-- The `_touchMove` handler (photogallery.js lines 320-331): returns early
when not dragging; otherwise emits a live track position offset by the drag
distance relative to the stage width.  It assigns no instance field. -/
def touchMove (g : Gallery) (pos : Int) (stageWidth : Int) :
    Gallery × Option DragHint :=
  if g.isDragging = false then (g, none)
  else
    let diff := pos - g.startPos
    let movePercent : ℚ := ((diff : ℚ) / (stageWidth : ℚ)) * 100
    (g, some { translatePercent := -((g.activeIndex : ℚ) * 100) + movePercent })

/-- The live `_touchEnd` handler (photogallery.js lines 361-373).  The class
body defines `_touchEnd` twice; the second definition overrides the first,
and it has no `isDragging` guard: it unconditionally clears `isDragging` and
calls `goto(this.activeIndex)`, never inspecting the drag distance.  The
second component lists the presentation instructions emitted during the
handler (exactly the one from the `goto` call). -/
def touchEnd (g : Gallery) : Gallery × List Instr :=
  let g1 := { g with isDragging := false }
  let r := goto g1 g1.activeIndex true
  (r.1, [r.2])

/-- State of one widget instance including the autoplay coordination:
`autoplayMs` is `config.autoplay` (`none` when disabled) and
`intervalRunning` records whether a repeating interval is currently
scheduled (`this.interval` live). -/
structure Widget where
  g : Gallery
  autoplayMs : Option Nat
  intervalRunning : Bool
  deriving DecidableEq, Repr

/-- External events whose handlers touch the core state. -/
inductive Event where
  | tick
  | touchStartE (pos : Int)
  | touchMoveE (pos : Int) (stageWidth : Int)
  | touchEndE
  | mouseEnterEl
  | mouseLeaveEl
  deriving DecidableEq, Repr

/-- One event-loop step.  A `tick` fires the interval callback
`() => this.next()` and can only occur while an interval is scheduled.
`_touchStart` and `_touchEnd` never touch the interval (photogallery.js
lines 314-318 and 361-373).  The `mouseenter`/`mouseleave` listeners on the
container are installed inside `startAutoplay` (lines 297-304), hence only
when autoplay is configured; they clear the interval and schedule a new
one. -/
def step (w : Widget) (e : Event) : Widget :=
  match e with
  | .tick => if w.intervalRunning then { w with g := (next w.g).1 } else w
  | .touchStartE p => { w with g := touchStart w.g p }
  | .touchMoveE p sw => { w with g := (touchMove w.g p sw).1 }
  | .touchEndE => { w with g := (touchEnd w.g).1 }
  | .mouseEnterEl =>
      if w.autoplayMs.isSome then { w with intervalRunning := false } else w
  | .mouseLeaveEl =>
      if w.autoplayMs.isSome then { w with intervalRunning := true } else w

/-- A manual navigation request: `next()` (advance) or `prev()` (retreat). -/
inductive NavOp where
  | adv
  | ret
  deriving DecidableEq, Repr

/-- Run a sequence of `next()`/`prev()` calls, keeping the state. -/
def runOps (g : Gallery) : List NavOp → Gallery
  | [] => g
  | op :: rest =>
      runOps (match op with | .adv => (next g).1 | .ret => (prev g).1) rest

/-- Repeat `goto(activeIndex, true)` at the current index `k` times,
returning the final state and the emitted instructions in order. -/
def gotoRep (g : Gallery) : Nat → Gallery × List Instr
  | 0 => (g, [])
  | k + 1 =>
      let r := goto g g.activeIndex true
      let rest := gotoRep r.1 k
      (rest.1, r.2 :: rest.2)

/- ------------------------------------------------------------------ -/
/- Helper lemmas (shared; not tied to a single claim).                 -/
/- ------------------------------------------------------------------ -/

theorem resolveIndex_mem (lp : Bool) (len : Nat) (hlen : 1 ≤ len) (i : Int) :
    0 ≤ resolveIndex lp len i ∧ resolveIndex lp len i < (len : Int) := by
  have hl : (1 : Int) ≤ (len : Int) := by exact_mod_cast hlen
  unfold resolveIndex
  cases lp <;> simp only [Bool.false_eq_true, if_true, if_false] <;>
    split_ifs <;> omega

theorem resolveIndex_of_mem (lp : Bool) (len : Nat) (i : Int)
    (h0 : 0 ≤ i) (h1 : i < (len : Int)) : resolveIndex lp len i = i := by
  unfold resolveIndex
  cases lp <;> simp only [Bool.false_eq_true, if_true, if_false] <;>
    split_ifs <;> omega

theorem resolveIndex_loop_neg (len : Nat) (hlen : 1 ≤ len) (i : Int)
    (h : i < 0) : resolveIndex true len i = (len : Int) - 1 := by
  have hl : (1 : Int) ≤ (len : Int) := by exact_mod_cast hlen
  simp only [resolveIndex, if_true]
  split_ifs <;> omega

theorem resolveIndex_loop_ge (len : Nat) (hlen : 1 ≤ len) (i : Int)
    (h : (len : Int) ≤ i) : resolveIndex true len i = 0 := by
  have hl : (1 : Int) ≤ (len : Int) := by exact_mod_cast hlen
  simp only [resolveIndex, if_true]
  split_ifs <;> omega

theorem resolveIndex_clamp (len : Nat) (hlen : 1 ≤ len) (i : Int) :
    resolveIndex false len i = max 0 (min ((len : Int) - 1) i) := by
  have hl : (1 : Int) ≤ (len : Int) := by exact_mod_cast hlen
  simp only [resolveIndex, Bool.false_eq_true, if_false]
  split_ifs <;> omega

theorem goto_fst (g : Gallery) (i : Int) (a : Bool) :
    (goto g i a).1 =
      { g with activeIndex := resolveIndex g.loop g.itemsLength i
               currentTranslate := -(resolveIndex g.loop g.itemsLength i * 100) } :=
  rfl

theorem goto_snd (g : Gallery) (i : Int) (a : Bool) :
    (goto g i a).2 =
      { percentage := -(resolveIndex g.loop g.itemsLength i * 100)
        animate := a
        highlight :=
          if 0 ≤ resolveIndex g.loop g.itemsLength i ∧
              resolveIndex g.loop g.itemsLength i < (g.itemsLength : Int) then
            some (resolveIndex g.loop g.itemsLength i)
          else none } :=
  rfl

theorem goto_activeIndex (g : Gallery) (i : Int) (a : Bool) :
    (goto g i a).1.activeIndex = resolveIndex g.loop g.itemsLength i :=
  rfl

theorem goto_itemsLength (g : Gallery) (i : Int) (a : Bool) :
    (goto g i a).1.itemsLength = g.itemsLength :=
  rfl

theorem goto_loop (g : Gallery) (i : Int) (a : Bool) :
    (goto g i a).1.loop = g.loop :=
  rfl

/- ------------------------------------------------------------------ -/
/- Claim theorems.                                                     -/
/- ------------------------------------------------------------------ -/

/-- C2: for every item count N ≥ 1, in both Clamp and Loop modes, and for
every finite sequence of `next()`/`prev()` calls starting from a valid
`activeIndex`, `activeIndex` remains in `[0, N-1]` after every call (any
sequence here covers every prefix, so the invariant holds at every step). -/
theorem C2_activeIndex_inRange (g : Gallery) (ops : List NavOp)
    (hlen : 1 ≤ g.itemsLength) (h0 : 0 ≤ g.activeIndex)
    (h1 : g.activeIndex < (g.itemsLength : Int)) :
    0 ≤ (runOps g ops).activeIndex ∧
      (runOps g ops).activeIndex < (g.itemsLength : Int) := by
  induction ops generalizing g with
  | nil => exact ⟨h0, h1⟩
  | cons op rest ih =>
    cases op with
    | adv =>
      have hm := resolveIndex_mem g.loop g.itemsLength hlen (g.activeIndex + 1)
      exact ih ((next g).1) hlen hm.1 hm.2
    | ret =>
      have hm := resolveIndex_mem g.loop g.itemsLength hlen (g.activeIndex - 1)
      exact ih ((prev g).1) hlen hm.1 hm.2

theorem C2_activeIndex_inRange_witness :
    1 ≤ (3 : Nat) ∧
      (0 ≤ (runOps ⟨3, true, 0, false, 0, 0⟩
          [NavOp.ret, NavOp.adv, NavOp.adv, NavOp.adv]).activeIndex ∧
        (runOps ⟨3, true, 0, false, 0, 0⟩
          [NavOp.ret, NavOp.adv, NavOp.adv, NavOp.adv]).activeIndex < ((3 : Nat) : Int)) :=
  ⟨by decide,
   C2_activeIndex_inRange ⟨3, true, 0, false, 0, 0⟩
     [NavOp.ret, NavOp.adv, NavOp.adv, NavOp.adv]
     (by decide) (by decide) (by decide)⟩

/-- C3: in Loop mode with N ≥ 1 items, `goto` resolves every requested index
below 0 to N-1 and every requested index at or above N to 0, sets
`activeIndex` to the resolved value, and keeps an in-range request as is. -/
theorem C3_loop_goto (g : Gallery) (i : Int) (a : Bool)
    (hm : g.loop = true) (hlen : 1 ≤ g.itemsLength) :
    (i < 0 → (goto g i a).1.activeIndex = (g.itemsLength : Int) - 1) ∧
      ((g.itemsLength : Int) ≤ i → (goto g i a).1.activeIndex = 0) ∧
      (0 ≤ i → i < (g.itemsLength : Int) → (goto g i a).1.activeIndex = i) := by
  rw [goto_activeIndex, hm]
  exact ⟨fun h => resolveIndex_loop_neg g.itemsLength hlen i h,
    fun h => resolveIndex_loop_ge g.itemsLength hlen i h,
    fun h0 h1 => resolveIndex_of_mem true g.itemsLength i h0 h1⟩

theorem C3_loop_goto_witness :
    ((⟨5, true, 2, false, 0, 0⟩ : Gallery).loop = true ∧ 1 ≤ (5 : Nat)) ∧
      (goto ⟨5, true, 2, false, 0, 0⟩ (-1) true).1.activeIndex = 4 ∧
      (goto ⟨5, true, 2, false, 0, 0⟩ 5 true).1.activeIndex = 0 :=
  ⟨⟨rfl, by decide⟩,
   by
    have h4 := (C3_loop_goto ⟨5, true, 2, false, 0, 0⟩ (-1) true rfl (by decide)).1
      (by decide)
    have h0 := (C3_loop_goto ⟨5, true, 2, false, 0, 0⟩ 5 true rfl (by decide)).2.1
      (by decide)
    exact ⟨by rw [h4]; decide, h0⟩⟩

/-- C4: in Clamp mode with N ≥ 1 items, `goto(i)` sets `activeIndex` to
`max(0, min(N-1, i))` for every integer `i`; in particular a further
`next()` at the last index leaves `activeIndex` at N-1. -/
theorem C4_clamp_goto (g : Gallery) (i : Int) (a : Bool)
    (hm : g.loop = false) (hlen : 1 ≤ g.itemsLength) :
    (goto g i a).1.activeIndex = max 0 (min ((g.itemsLength : Int) - 1) i) ∧
      (g.activeIndex = (g.itemsLength : Int) - 1 →
        (next g).1.activeIndex = (g.itemsLength : Int) - 1) := by
  constructor
  · rw [goto_activeIndex, hm]
    exact resolveIndex_clamp g.itemsLength hlen i
  · intro h
    rw [next, goto_activeIndex, hm, resolveIndex_clamp g.itemsLength hlen, h]
    omega

theorem C4_clamp_goto_witness :
    ((⟨4, false, 3, false, 0, 0⟩ : Gallery).loop = false ∧ 1 ≤ (4 : Nat)) ∧
      (goto ⟨4, false, 3, false, 0, 0⟩ (-1) true).1.activeIndex = 0 ∧
      (goto ⟨4, false, 3, false, 0, 0⟩ 4 true).1.activeIndex = 3 ∧
      (next ⟨4, false, 3, false, 0, 0⟩).1.activeIndex = 3 :=
  ⟨⟨rfl, by decide⟩,
   by
    have hlo := (C4_clamp_goto ⟨4, false, 3, false, 0, 0⟩ (-1) true rfl (by decide)).1
    have hhi := (C4_clamp_goto ⟨4, false, 3, false, 0, 0⟩ 4 true rfl (by decide)).1
    have hnx := (C4_clamp_goto ⟨4, false, 3, false, 0, 0⟩ 0 true rfl (by decide)).2
      (by decide)
    exact ⟨by rw [hlo]; decide, by rw [hhi]; decide, hnx⟩⟩

/-- C10: in Loop mode, for every N ≥ 1 and valid `activeIndex`, a `next()`
followed by a `prev()` restores `activeIndex`, including across the
wraparound at the last item. -/
theorem C10_next_prev_inverse (g : Gallery)
    (hm : g.loop = true) (hlen : 1 ≤ g.itemsLength)
    (h0 : 0 ≤ g.activeIndex) (h1 : g.activeIndex < (g.itemsLength : Int)) :
    (prev (next g).1).1.activeIndex = g.activeIndex := by
  have hl : (1 : Int) ≤ (g.itemsLength : Int) := by exact_mod_cast hlen
  rw [prev, goto_activeIndex, next, goto_loop, goto_itemsLength,
    goto_activeIndex, hm]
  by_cases hlast : g.activeIndex + 1 < (g.itemsLength : Int)
  · rw [resolveIndex_of_mem true g.itemsLength (g.activeIndex + 1) (by omega) hlast]
    have hs : g.activeIndex + 1 - 1 = g.activeIndex := by omega
    rw [hs, resolveIndex_of_mem true g.itemsLength g.activeIndex h0 h1]
  · rw [resolveIndex_loop_ge g.itemsLength hlen (g.activeIndex + 1) (by omega),
      resolveIndex_loop_neg g.itemsLength hlen (0 - 1) (by omega)]
    omega

theorem C10_next_prev_inverse_witness :
    ((⟨5, true, 4, false, 0, 0⟩ : Gallery).loop = true ∧ 1 ≤ (5 : Nat) ∧
        0 ≤ (4 : Int) ∧ (4 : Int) < ((5 : Nat) : Int)) ∧
      (prev (next ⟨5, true, 4, false, 0, 0⟩).1).1.activeIndex =
        (⟨5, true, 4, false, 0, 0⟩ : Gallery).activeIndex :=
  ⟨⟨rfl, by decide, by decide, by decide⟩,
   C10_next_prev_inverse ⟨5, true, 4, false, 0, 0⟩ rfl (by decide) (by decide)
     (by decide)⟩

/-- C8: `_touchMove` assigns no instance field — the state, in particular
`activeIndex`, is returned unchanged — and while not dragging (Idle, no
prior `_touchStart`) it also emits no rendering hint. -/
theorem C8_touchMove_pure (g : Gallery) (pos stageWidth : Int) :
    (touchMove g pos stageWidth).1 = g ∧
      (g.isDragging = false → (touchMove g pos stageWidth).2 = none) := by
  by_cases hd : g.isDragging = false
  · simp [touchMove, hd]
  · simp [touchMove, hd]

theorem C8_touchMove_pure_witness :
    (touchMove ⟨3, false, 1, false, 0, 0⟩ 40 500).1 = ⟨3, false, 1, false, 0, 0⟩ ∧
      (touchMove ⟨3, false, 1, false, 0, 0⟩ 40 500).2 = none :=
  ⟨(C8_touchMove_pure ⟨3, false, 1, false, 0, 0⟩ 40 500).1,
   (C8_touchMove_pure ⟨3, false, 1, false, 0, 0⟩ 40 500).2 rfl⟩

/-- C9: with N ≥ 1 and a valid current index, repeating
`goto(activeIndex, true)` any number of times never changes `activeIndex`
and emits the same presentation instruction on every call. -/
theorem C9_goto_idempotent (k : Nat) :
    ∀ g : Gallery, 1 ≤ g.itemsLength → 0 ≤ g.activeIndex →
      g.activeIndex < (g.itemsLength : Int) →
      (gotoRep g k).1.activeIndex = g.activeIndex ∧
        (gotoRep g k).2 = List.replicate k (goto g g.activeIndex true).2 := by
  induction k with
  | zero => exact fun g _ _ _ => ⟨rfl, rfl⟩
  | succ k ih =>
    intro g hlen h0 h1
    have hres : resolveIndex g.loop g.itemsLength g.activeIndex = g.activeIndex :=
      resolveIndex_of_mem g.loop g.itemsLength g.activeIndex h0 h1
    have hfst : (goto g g.activeIndex true).1.activeIndex = g.activeIndex := by
      rw [goto_activeIndex, hres]
    have ihg := ih (goto g g.activeIndex true).1
      (by rw [goto_itemsLength]; exact hlen)
      (by rw [hfst]; exact h0)
      (by rw [hfst, goto_itemsLength]; exact h1)
    have hsnd : (goto (goto g g.activeIndex true).1
        ((goto g g.activeIndex true).1.activeIndex) true).2 =
        (goto g g.activeIndex true).2 := by
      rw [goto_snd, goto_snd, goto_loop, goto_itemsLength, hfst]
    constructor
    · simp only [gotoRep]
      rw [ihg.1, hfst]
    · simp only [gotoRep, List.replicate_succ]
      rw [ihg.2, hsnd]

theorem C9_goto_idempotent_witness :
    (1 ≤ (4 : Nat) ∧ 0 ≤ (2 : Int) ∧ (2 : Int) < ((4 : Nat) : Int)) ∧
      (gotoRep ⟨4, false, 2, false, 0, 0⟩ 3).1.activeIndex = 2 ∧
      (gotoRep ⟨4, false, 2, false, 0, 0⟩ 3).2 =
        List.replicate 3 (goto ⟨4, false, 2, false, 0, 0⟩ 2 true).2 :=
  ⟨⟨by decide, by decide, by decide⟩,
   by
    exact C9_goto_idempotent 3 ⟨4, false, 2, false, 0, 0⟩ (by decide) (by decide)
        (by decide)⟩

/-- C5 counterexample: with N = 0 in Clamp mode, `goto(0)` is not a no-op —
it changes `activeIndex` from 0 to -1 and still emits a presentation
instruction moving the track (the clamp branch assigns
`items.length - 1 = -1`). -/
theorem C5_counterexample :
    (⟨0, false, 0, false, 0, 0⟩ : Gallery).activeIndex = 0 ∧
      (goto ⟨0, false, 0, false, 0, 0⟩ 0 true).1.activeIndex = -1 ∧
      (goto ⟨0, false, 0, false, 0, 0⟩ 0 true).2 =
        { percentage := 100, animate := true, highlight := none } := by
  decide

/-- C5 amended: with N = 0, `goto` never raises but is not a no-op: in Clamp
mode every requested index resolves to -1; in Loop mode a negative request
resolves to -1 and a non-negative one to 0; `activeIndex` is set to that
value and a presentation instruction is still emitted (with the requested
animation flag and no nav highlight). -/
theorem C5_empty_goto (g : Gallery) (i : Int) (a : Bool)
    (hlen : g.itemsLength = 0) :
    ((g.loop = false → (goto g i a).1.activeIndex = -1) ∧
      (g.loop = true →
        (goto g i a).1.activeIndex = if i < 0 then -1 else 0)) ∧
      (goto g i a).2.animate = a := by
  refine ⟨⟨?_, ?_⟩, rfl⟩
  · intro hm
    rw [goto_activeIndex, hm, hlen]
    simp only [resolveIndex, Bool.false_eq_true, if_false, Nat.cast_zero]
    split_ifs <;> omega
  · intro hm
    rw [goto_activeIndex, hm, hlen]
    simp only [resolveIndex, if_true, Nat.cast_zero]
    split_ifs <;> omega

theorem C5_empty_goto_witness :
    (⟨0, false, 5, false, 0, 0⟩ : Gallery).itemsLength = 0 ∧
      ((((⟨0, false, 5, false, 0, 0⟩ : Gallery).loop = false →
          (goto ⟨0, false, 5, false, 0, 0⟩ 7 true).1.activeIndex = -1) ∧
        ((⟨0, false, 5, false, 0, 0⟩ : Gallery).loop = true →
          (goto ⟨0, false, 5, false, 0, 0⟩ 7 true).1.activeIndex =
            if (7 : Int) < 0 then -1 else 0)) ∧
        (goto ⟨0, false, 5, false, 0, 0⟩ 7 true).2.animate = true) :=
  ⟨rfl, C5_empty_goto ⟨0, false, 5, false, 0, 0⟩ 7 true rfl⟩

/-- C7 counterexample: the live `_touchEnd` (the second definition, which
overrides the guarded first one) invoked from Idle (`isDragging = false`)
is not a no-op: it still calls `goto(activeIndex)` and emits an animated
presentation instruction. -/
theorem C7_counterexample :
    (⟨2, false, 0, false, 0, 0⟩ : Gallery).isDragging = false ∧
      (touchEnd ⟨2, false, 0, false, 0, 0⟩).2 ≠ [] ∧
      (touchEnd ⟨2, false, 0, false, 0, 0⟩).2 =
        [{ percentage := 0, animate := true, highlight := some 0 }] := by
  decide

/-- C7 amended: `_touchEnd` from Idle leaves the drag state inactive and —
when N ≥ 1 and `activeIndex` is valid — leaves `activeIndex` unchanged, but
it does not return early: it still calls `goto(activeIndex)` and emits one
animated presentation instruction snapping to the current index. -/
theorem C7_endDrag_idle (g : Gallery)
    (hd : g.isDragging = false) (hlen : 1 ≤ g.itemsLength)
    (h0 : 0 ≤ g.activeIndex) (h1 : g.activeIndex < (g.itemsLength : Int)) :
    (touchEnd g).1.activeIndex = g.activeIndex ∧
      (touchEnd g).1.isDragging = false ∧
      (touchEnd g).2 =
        [{ percentage := -(g.activeIndex * 100), animate := true,
           highlight := some g.activeIndex }] := by
  have hres : resolveIndex g.loop g.itemsLength g.activeIndex = g.activeIndex :=
    resolveIndex_of_mem g.loop g.itemsLength g.activeIndex h0 h1
  refine ⟨?_, rfl, ?_⟩
  · show resolveIndex g.loop g.itemsLength g.activeIndex = g.activeIndex
    exact hres
  · show [(goto { g with isDragging := false } g.activeIndex true).2] = _
    rw [goto_snd]
    dsimp only
    rw [hres, if_pos ⟨h0, h1⟩]

theorem C7_endDrag_idle_witness :
    ((⟨2, false, 1, false, 0, 0⟩ : Gallery).isDragging = false ∧
        1 ≤ (2 : Nat) ∧ 0 ≤ (1 : Int) ∧ (1 : Int) < ((2 : Nat) : Int)) ∧
      (touchEnd ⟨2, false, 1, false, 0, 0⟩).1.activeIndex = 1 ∧
      (touchEnd ⟨2, false, 1, false, 0, 0⟩).1.isDragging = false ∧
      (touchEnd ⟨2, false, 1, false, 0, 0⟩).2 =
        [{ percentage := -(1 * 100), animate := true, highlight := some 1 }] :=
  ⟨⟨rfl, by decide, by decide, by decide⟩,
   by
    exact C7_endDrag_idle ⟨2, false, 1, false, 0, 0⟩ rfl (by decide) (by decide)
        (by decide)⟩

/-- C6 counterexample: with autoplay configured and its interval running,
`_touchStart` does not pause the timer, so a tick arriving during the drag
still runs the interval callback `next()` and changes `activeIndex` —
against the claim that no timer tick invokes an advance during a drag. -/
theorem C6_counterexample :
    (step ⟨⟨3, false, 0, false, 0, 0⟩, some 3000, true⟩
        (Event.touchStartE 100)).g.isDragging = true ∧
      (step ⟨⟨3, false, 0, false, 0, 0⟩, some 3000, true⟩
        (Event.touchStartE 100)).intervalRunning = true ∧
      (step (step ⟨⟨3, false, 0, false, 0, 0⟩, some 3000, true⟩
        (Event.touchStartE 100)) Event.tick).g.activeIndex = 1 := by
  decide

/-- C6 amended: the code suspends autoplay only for hover, never for drags:
`_touchStart` and `_touchEnd` leave the interval state unchanged (so a tick
during an active drag still calls `next()`), while the `mouseenter` and
`mouseleave` listeners installed by `startAutoplay` clear, respectively
reschedule, the interval whenever autoplay is configured. -/
theorem C6_autoplay_hover_only (w : Widget) (p : Int) :
    (step w (Event.touchStartE p)).intervalRunning = w.intervalRunning ∧
      (step w Event.touchEndE).intervalRunning = w.intervalRunning ∧
      (w.intervalRunning = true → (step w Event.tick).g = (next w.g).1) ∧
      (w.autoplayMs.isSome = true →
        (step w Event.mouseEnterEl).intervalRunning = false ∧
          (step w Event.mouseLeaveEl).intervalRunning = true) := by
  refine ⟨rfl, rfl, ?_, ?_⟩
  · intro h
    simp [step, h]
  · intro h
    simp [step, h]

theorem C6_autoplay_hover_only_witness :
    (step ⟨⟨2, true, 0, false, 0, 0⟩, some 1000, true⟩
        (Event.touchStartE 5)).intervalRunning = true ∧
      (step ⟨⟨2, true, 0, false, 0, 0⟩, some 1000, true⟩
        Event.touchEndE).intervalRunning = true ∧
      (step ⟨⟨2, true, 0, false, 0, 0⟩, some 1000, true⟩ Event.tick).g =
        (next ⟨2, true, 0, false, 0, 0⟩).1 ∧
      (step ⟨⟨2, true, 0, false, 0, 0⟩, some 1000, true⟩
        Event.mouseEnterEl).intervalRunning = false ∧
      (step ⟨⟨2, true, 0, false, 0, 0⟩, some 1000, true⟩
        Event.mouseLeaveEl).intervalRunning = true :=
  ⟨(C6_autoplay_hover_only ⟨⟨2, true, 0, false, 0, 0⟩, some 1000, true⟩ 5).1,
   (C6_autoplay_hover_only ⟨⟨2, true, 0, false, 0, 0⟩, some 1000, true⟩ 5).2.1,
   (C6_autoplay_hover_only ⟨⟨2, true, 0, false, 0, 0⟩, some 1000, true⟩ 5).2.2.1 rfl,
   ((C6_autoplay_hover_only ⟨⟨2, true, 0, false, 0, 0⟩, some 1000, true⟩ 5).2.2.2 rfl).1,
   ((C6_autoplay_hover_only ⟨⟨2, true, 0, false, 0, 0⟩, some 1000, true⟩ 5).2.2.2 rfl).2⟩

/-- C1, evaluated at the spec's own commit scenario: Clamp mode, N = 4,
`baseIndex = activeIndex = 2`, drag from position 100 to position 40
(delta -60, beyond the 50px threshold).  The live `_touchEnd` never
inspects the drag distance — it stores no last position and always calls
`goto(this.activeIndex)` — so `activeIndex` stays 2 instead of the 3 the
spec requires. -/
theorem C1_touchEnd_never_commits :
    (touchEnd (touchMove (touchStart ⟨4, false, 2, false, 0, 0⟩ 100)
        40 500).1).1.activeIndex = 2 ∧
      (touchEnd (touchMove (touchStart ⟨4, false, 2, false, 0, 0⟩ 100)
        40 500).1).1.activeIndex ≠ 3 := by
  decide

end PhotoGallery
